import Mathlib

/-!
# Verification of the XProject session pump (`src/Code/network_common/session.h`)

A shallow embedding of the per-connection transport core: the `Session`
template's read loop (`PostReceive` and its completion lambda), write loop
(`PostWrite` and its completion lambda), `SendPacket`, and `Shutdown`.

The `PacketBuffer` class is not part of the given sources (only
`session.h` is); its operations are modelled from the specification
(section 4.1 of the design document) and are marked as such.

Machine integers: the source stores buffer sizes in `uint16` (the
completion handlers narrow `std::size_t bytes_transferred` with
`static_cast<uint16>`), modelled as `Nat` with explicit `% 65536` at the
cast sites.

Asynchronous I/O: a completion handler is modelled as a pure function of
the completion's inputs (`error_code`, `bytes_transferred` / the received
bytes) and the session state; the asynchronous operations it posts are
recorded in an output list rather than executed.  Exceptions are modelled
with an explicit exception type so that the `catch` clause's matching
behaviour is faithful to C++ (a handler for `boost::system::error_code`
does not catch a thrown `boost::system::system_error`).
-/

namespace XP

/-- `boost::asio::socket_base::shutdown_type`. -/
inductive ShutdownType
  | shutdown_receive
  | shutdown_send
  | shutdown_both
deriving DecidableEq, Repr

/-- The completion `error_code` values distinguished by the handlers in
`session.h`: success, `boost::asio::error::eof`,
`boost::asio::error::connection_reset`,
`boost::asio::error::connection_aborted`, or any other OS error (carrying
its numeric value). -/
inductive ErrorCode
  | ok
  | eof
  | connectionReset
  | connectionAborted
  | other (code : Nat)
deriving DecidableEq, Repr

/-- `errorCode` used as a boolean (C++ `if (errorCode || ...)`):
true exactly when the completion reports an OS error. -/
def ErrorCode.isError : ErrorCode → Bool
  | ErrorCode.ok => false
  | _ => true

/-- `errorCode.value()`: the numeric value logged by the generic error
branches.  Concrete values follow boost/errno conventions; only the
`other` constructor's value is ever reached by a log statement. -/
def ErrorCode.val : ErrorCode → Nat
  | ErrorCode.ok => 0
  | ErrorCode.eof => 2
  | ErrorCode.connectionReset => 104
  | ErrorCode.connectionAborted => 103
  | ErrorCode.other c => c

/-- Severity of a log line (`LOG_INFO` vs `LOG_ERROR`). -/
inductive Severity
  | info
  | err
deriving DecidableEq, Repr

/-- One log line emitted by `session.h`, identified by its message and the
data it carries. -/
inductive LogEntry
  /-- "Fail to PostReceive. Session is disconnected." (arming check). -/
  | postReceiveClosed
  /-- "Fail to PostReceive. Session is disconnected." (inside the read
  completion lambda). -/
  | recvCompletionClosed
  /-- "Disconnected. address/port" (eof or connection_reset). -/
  | disconnected
  /-- "Connection aborted. address/port". -/
  | connectionAborted
  /-- "Disconnected. 0 bytes transferred. address/port". -/
  | zeroBytes
  /-- "Connection receive error. error_code/error_message/address/port". -/
  | recvError (code : Nat)
  /-- "Receive buffer error. remain size/bytes_transferred". -/
  | recvBufferError
  /-- "Receive Handler failed. packetNumber". -/
  | handlerFailed (packetNo : Nat)
  /-- "Session is disconnected(type). ip/port" (inside `Shutdown`). -/
  | sessionDisconnected (ty : ShutdownType)
  /-- "Session fail to close socket. error_code/error_message"
  (the `catch` clause inside `Shutdown`). -/
  | shutdownCloseError (code : Nat)
  /-- "Fail to PostWrite. socket is closed." (arming check). -/
  | postWriteClosed
  /-- "Fail to PostWrite. Session is disconnected." (inside the write
  completion lambda). -/
  | writeCompletionClosed
  /-- "Connection send error. error_code/error_message/address/port". -/
  | sendError (code : Nat)
  /-- "Fail to SetPacket()." (inside `SendPacket`). -/
  | setPacketFailed
deriving DecidableEq, Repr

/-- The severity of each log line (`LOG_INFO` / `LOG_ERROR` in the source). -/
def LogEntry.severity : LogEntry → Severity
  | LogEntry.postReceiveClosed => Severity.err
  | LogEntry.recvCompletionClosed => Severity.err
  | LogEntry.disconnected => Severity.info
  | LogEntry.connectionAborted => Severity.info
  | LogEntry.zeroBytes => Severity.info
  | LogEntry.recvError _ => Severity.err
  | LogEntry.recvBufferError => Severity.err
  | LogEntry.handlerFailed _ => Severity.err
  | LogEntry.sessionDisconnected _ => Severity.info
  | LogEntry.shutdownCloseError _ => Severity.err
  | LogEntry.postWriteClosed => Severity.err
  | LogEntry.writeCompletionClosed => Severity.err
  | LogEntry.sendError _ => Severity.err
  | LogEntry.setPacketFailed => Severity.err

/-- Whether a log line carries the OS error code and message
(`error_code: {}, error_message: {}` in the format string). -/
def LogEntry.mentionsErrorCode : LogEntry → Bool
  | LogEntry.recvError _ => true
  | LogEntry.sendError _ => true
  | LogEntry.shutdownCloseError _ => true
  | _ => false

/-- Overwrite `data.length` bytes of `l` starting at position `pos`
(the effect of the OS writing received bytes into a caller-supplied
region, and of copying a serialized packet into the buffer tail). -/
def writeBytesAt (l : List Nat) (pos : Nat) (data : List Nat) : List Nat :=
  l.take pos ++ data ++ l.drop (pos + data.length)

/-- Modelled from the spec: `PacketBuffer` (section 4.1) is not among the
given sources; a contiguous byte region with a read cursor and a write
cursor, `[readCursor, writeCursor)` being the pending bytes. -/
structure PacketBuffer where
  storage : List Nat
  capacity : Nat
  readCursor : Nat
  writeCursor : Nat
deriving DecidableEq, Repr

/-- Modelled from the spec: the cursor invariant `0 ≤ readCursor ≤
writeCursor ≤ capacity`, storage of exactly `capacity` bytes, and sizes
representable in the `uint16` interface the source calls
(`AppendWriteSize`/`TruncateBuffer` take `uint16`). -/
def PacketBuffer.WF (b : PacketBuffer) : Prop :=
  b.readCursor ≤ b.writeCursor ∧ b.writeCursor ≤ b.capacity ∧
  b.storage.length = b.capacity ∧ b.capacity < 65536

/-- Modelled from the spec: `remaining-capacity()` — free bytes at the
tail, `capacity - writeCursor`. -/
def PacketBuffer.GetRemainSize (b : PacketBuffer) : Nat :=
  b.capacity - b.writeCursor

/-- Modelled from the spec: the configured receive-chunk floor under
which the buffer reports it is low on space (value not fixed by the
spec; 8 is chosen here). -/
def recvChunkFloor : Nat := 8

/-- Modelled from the spec: `is-low-on-space()` — remaining capacity is
below the receive-chunk floor. -/
def PacketBuffer.IsNotEnoughBuffer (b : PacketBuffer) : Bool :=
  decide (b.GetRemainSize < recvChunkFloor)

/-- Modelled from the spec: the pending bytes `[readCursor, writeCursor)`. -/
def PacketBuffer.pendingBytes (b : PacketBuffer) : List Nat :=
  (b.storage.drop b.readCursor).take (b.writeCursor - b.readCursor)

/-- Modelled from the spec: `compact()` — shift the pending bytes to
offset 0 and reset the cursors accordingly. -/
def PacketBuffer.ReArrange (b : PacketBuffer) : PacketBuffer :=
  { b with
    storage := b.pendingBytes ++
      List.replicate (b.capacity - (b.writeCursor - b.readCursor)) 0
    readCursor := 0
    writeCursor := b.writeCursor - b.readCursor }

/-- Modelled from the spec: `record-bytes-written(n)` — advance the write
cursor by `n`, failing (BufferOverrun, `none`) if that would exceed
capacity. -/
def PacketBuffer.AppendWriteSize (b : PacketBuffer) (n : Nat) :
    Option PacketBuffer :=
  if b.writeCursor + n ≤ b.capacity then
    some { b with writeCursor := b.writeCursor + n }
  else
    none

/-- Byte at offset `i` from the read cursor. -/
def PacketBuffer.byteAt (b : PacketBuffer) (i : Nat) : Nat :=
  b.storage.getD (b.readCursor + i) 0

/-- Modelled from the spec: the payload length declared by the next
packet's header.  Wire framing (section 6): a fixed header carrying a
length and an opcode, then a payload of the declared length; here the
header is 4 bytes — little-endian 16-bit payload length, then a
little-endian 16-bit opcode. -/
def PacketBuffer.declaredLen (b : PacketBuffer) : Nat :=
  b.byteAt 0 + 256 * b.byteAt 1

/-- Header size of the modelled wire framing. -/
def headerSize : Nat := 4

/-- Modelled from the spec: `has-ready-packet()` — the header and the
declared payload both lie within the pending bytes. -/
def PacketBuffer.IsAbleToGetPacket (b : PacketBuffer) : Bool :=
  decide (headerSize + b.declaredLen ≤ b.writeCursor - b.readCursor)

/-- Modelled from the spec: `peek-packet-id()` — the opcode of the next
ready packet, read for diagnostics when a handler fails. -/
def PacketBuffer.GetPacketNo (b : PacketBuffer) : Nat :=
  b.byteAt 2 + 256 * b.byteAt 3

/-- Modelled from the spec: `consume-packet()` — advance the read cursor
past one full packet (header plus declared payload). -/
def PacketBuffer.consumePacket (b : PacketBuffer) : PacketBuffer :=
  { b with readCursor := b.readCursor + (headerSize + b.declaredLen) }

/-- Modelled from the spec: `set-packet(serializedPacket)` — append the
serialized bytes at the write cursor, all or nothing; `none`
(EncodeOverflow) if they do not fit, leaving the buffer unchanged. -/
def PacketBuffer.SetPacket (b : PacketBuffer) (pkt : List Nat) :
    Option PacketBuffer :=
  if b.writeCursor + pkt.length ≤ b.capacity then
    some { b with
      storage := writeBytesAt b.storage b.writeCursor pkt
      writeCursor := b.writeCursor + pkt.length }
  else
    none

/-- Modelled from the spec: `IsEmptyData` — no pending bytes
(`readCursor == writeCursor`). -/
def PacketBuffer.IsEmptyData (b : PacketBuffer) : Bool :=
  decide (b.readCursor = b.writeCursor)

/-- Modelled from the spec: `record-bytes-sent(n)` (`TruncateBuffer`) —
advance the read cursor by `n` transmitted bytes. -/
def PacketBuffer.TruncateBuffer (b : PacketBuffer) (n : Nat) : PacketBuffer :=
  { b with readCursor := b.readCursor + n }

/-- Modelled from the spec: `GetBufferSize` — the number of pending bytes
handed to `async_write`. -/
def PacketBuffer.GetBufferSize (b : PacketBuffer) : Nat :=
  b.writeCursor - b.readCursor

/-- The OS depositing received bytes into the buffer's mutable tail
(`GetMutableBuffer()`): storage changes at `[writeCursor, ...)`, cursors
do not move until `AppendWriteSize` is called by the handler. -/
def PacketBuffer.osDeposit (b : PacketBuffer) (data : List Nat) :
    PacketBuffer :=
  { b with storage := writeBytesAt b.storage b.writeCursor data }

/-- The state of one `Session`: the socket's open flag and the two
buffers (`_recvBuffer`, `_sendBuffer`). -/
structure SessionState where
  socketOpen : Bool
  recvBuffer : PacketBuffer
  sendBuffer : PacketBuffer
deriving DecidableEq, Repr

/-- An asynchronous operation posted against the reactor. -/
inductive AsyncOp
  | asyncRead
  | asyncWrite
deriving DecidableEq, Repr

/-- Observable events of the write path, recording the `SlimRWLock`
acquisitions/releases and the bookkeeping steps, to state ordering
properties such as "PostWrite is re-entered only after the lock is
released". -/
inductive Event
  | lockAcquire
  | lockRelease
  | truncate (n : Nat)
  | reArrange
  | postAsyncWrite
  | callPostWrite
deriving DecidableEq, Repr

/-- Result of running one member function or completion handler:
the session state afterwards, the log lines emitted, the asynchronous
operations posted, the lock/bookkeeping event trace (write path), whether
the process terminated (an exception escaping a `noexcept` function), and
the boolean return value where the source returns one. -/
structure StepResult where
  state : SessionState
  logs : List LogEntry
  posted : List AsyncOp
  events : List Event
  terminated : Bool
  ret : Bool
deriving DecidableEq, Repr

/-- C++ exceptions distinguished by type, so that `catch` clause matching
is faithful: boost.asio's throwing overloads raise
`boost::system::system_error`; a `catch (const boost::system::error_code&)`
clause matches only a thrown `error_code` value, not a `system_error`. -/
inductive CppExn
  | systemError (code : Nat)
  | errorCodeVal (code : Nat)
deriving DecidableEq, Repr

/-- The try-block body of `Shutdown`: `_socket.shutdown(shutdownType);
_socket.close();`.  `osErr` is the OS outcome: `none` if both calls
succeed (socket ends closed), `some c` if one fails, in which case asio
throws `boost::system::system_error` carrying code `c`. -/
def shutdownCloseOps (osErr : Option Nat) (s : SessionState) :
    Except CppExn SessionState :=
  match osErr with
  | none => Except.ok { s with socketOpen := false }
  | some c => Except.error (CppExn.systemError c)

/-- Outcome of `Session::Shutdown`: normal completion with the new state
and logs, or process termination (an exception escaping the `noexcept`
function calls `std::terminate`). -/
inductive ShutdownResult
  | ok (s : SessionState) (logs : List LogEntry)
  | terminated (logs : List LogEntry)
deriving DecidableEq, Repr

/-- `Session::Shutdown(shutdownType) noexcept`: return immediately if the
socket is not open; otherwise log the disconnect (with the shutdown type
string), then try `shutdown`+`close`, catching only
`boost::system::error_code`.  Because the socket operations throw
`boost::system::system_error`, the catch clause never matches and an OS
error escapes the `noexcept` function: `std::terminate`. -/
def Shutdown (osErr : Option Nat) (ty : ShutdownType) (s : SessionState) :
    ShutdownResult :=
  if s.socketOpen = false then
    ShutdownResult.ok s []
  else
    let logs := [LogEntry.sessionDisconnected ty]
    match shutdownCloseOps osErr s with
    | Except.ok s2 => ShutdownResult.ok s2 logs
    | Except.error e =>
      match e with
      | CppExn.errorCodeVal c =>
          ShutdownResult.ok s (logs ++ [LogEntry.shutdownCloseError c])
      | CppExn.systemError _ => ShutdownResult.terminated logs

/-- Wrap a `Shutdown` call made from inside a completion handler into
a `StepResult`: the handler returns right after `Shutdown` (no re-arm,
nothing further posted), or the process terminates if `Shutdown` let an
exception escape. -/
def runShutdown (osErr : Option Nat) (ty : ShutdownType) (s : SessionState)
    (logs : List LogEntry) (events : List Event) : StepResult :=
  match Shutdown osErr ty s with
  | ShutdownResult.ok s2 l2 =>
      { state := s2, logs := logs ++ l2, posted := [], events := events,
        terminated := false, ret := true }
  | ShutdownResult.terminated l2 =>
      { state := s, logs := logs ++ l2, posted := [], events := events,
        terminated := true, ret := true }

/-- `Session::PostReceive` (the arming part, before the lambda): fail if
the socket is closed; compact the receive buffer if it is low on space;
post one `async_read_some` into the buffer's free tail. -/
def PostReceive (s : SessionState) : StepResult :=
  if s.socketOpen = false then
    { state := s, logs := [LogEntry.postReceiveClosed], posted := [],
      events := [], terminated := false, ret := false }
  else
    let rb :=
      if s.recvBuffer.IsNotEnoughBuffer then s.recvBuffer.ReArrange
      else s.recvBuffer
    { state := { s with recvBuffer := rb }, logs := [],
      posted := [AsyncOp.asyncRead], events := [], terminated := false,
      ret := true }

/-- The read completion lambda's drain loop:
`while (_recvBuffer.IsAbleToGetPacket()) { if (!Handle(...)) ... }`.
The external `PacketHandlerManager::Handle` (its header is not among the
given sources) is modelled from the spec (section 6): given a buffer with
a ready packet it consumes exactly one packet and returns
success/failure; `h k` is the oracle for the outcome of the `k`-th
dispatch, and a failing dispatch leaves the buffer unconsumed (the source
then reads the failing packet's `GetPacketNo()` from the buffer).
Returns the next dispatch index, the buffer, and `some packetNo` when a
dispatch failed (`none` when the loop drained every ready packet). -/
def drainLoop (h : Nat → Bool) (k : Nat) (rb : PacketBuffer) :
    Nat × PacketBuffer × Option Nat :=
  if hr : rb.IsAbleToGetPacket then
    if h k then
      drainLoop h (k + 1) rb.consumePacket
    else
      (k, rb, some rb.GetPacketNo)
  else
    (k, rb, none)
termination_by rb.writeCursor - rb.readCursor
decreasing_by
  simp only [PacketBuffer.IsAbleToGetPacket, PacketBuffer.consumePacket,
    headerSize, decide_eq_true_eq] at *
  omega

/-- The completion lambda of `Session::PostReceive`.  Inputs: the handler
oracle `h`, the OS outcome `shutErr` of any nested `Shutdown`'s socket
calls, the completion's `errorCode`, and the received bytes `data`
(`bytes_transferred = data.length`, already deposited by the OS into the
buffer's mutable tail before the handler runs).  Mirrors the source: the
open check; the error/zero-bytes classification choosing a shutdown type
(default `shutdown_receive`, upgraded to `shutdown_both` for eof or
connection_reset) and a log line; `AppendWriteSize` on the `uint16`-cast
size; the drain loop with receive-only shutdown on dispatch failure; and
the `PostReceive()` re-arm. -/
def PostReceiveCompletion (h : Nat → Bool) (shutErr : Option Nat)
    (ec : ErrorCode) (data : List Nat) (s0 : SessionState) : StepResult :=
  let n := data.length
  let s := { s0 with recvBuffer := s0.recvBuffer.osDeposit data }
  if s.socketOpen = false then
    { state := s, logs := [LogEntry.recvCompletionClosed], posted := [],
      events := [], terminated := false, ret := true }
  else if ec.isError || n == 0 then
    let ty :=
      if ec = ErrorCode.eof ∨ ec = ErrorCode.connectionReset then
        ShutdownType.shutdown_both
      else
        ShutdownType.shutdown_receive
    let lg :=
      if ec = ErrorCode.eof ∨ ec = ErrorCode.connectionReset then
        LogEntry.disconnected
      else if ec = ErrorCode.connectionAborted then
        LogEntry.connectionAborted
      else if n = 0 then
        LogEntry.zeroBytes
      else
        LogEntry.recvError ec.val
    runShutdown shutErr ty s [lg] []
  else
    match s.recvBuffer.AppendWriteSize (n % 65536) with
    | none =>
        runShutdown shutErr ShutdownType.shutdown_receive s
          [LogEntry.recvBufferError] []
    | some rb =>
      match drainLoop h 0 rb with
      | (_, rb2, some pno) =>
          runShutdown shutErr ShutdownType.shutdown_receive
            { s with recvBuffer := rb2 } [LogEntry.handlerFailed pno] []
      | (_, rb2, none) =>
          PostReceive { s with recvBuffer := rb2 }

/-- `Session::PostWrite` (the arming part): the whole body runs under
`LOCK_W(_lock)`.  Fail if the socket is closed; return silently if the
send buffer has no pending data; otherwise post one `async_write` of the
pending bytes. -/
def PostWrite (s : SessionState) : StepResult :=
  if s.socketOpen = false then
    { state := s, logs := [LogEntry.postWriteClosed], posted := [],
      events := [Event.lockAcquire, Event.lockRelease],
      terminated := false, ret := true }
  else if s.sendBuffer.IsEmptyData then
    { state := s, logs := [], posted := [],
      events := [Event.lockAcquire, Event.lockRelease],
      terminated := false, ret := true }
  else
    { state := s, logs := [], posted := [AsyncOp.asyncWrite],
      events := [Event.lockAcquire, Event.postAsyncWrite,
        Event.lockRelease],
      terminated := false, ret := true }

/-- The completion lambda of `Session::PostWrite`.  An inner block
re-acquires `LOCK_W(_lock)`: the open check; the error/zero-bytes
classification (default `shutdown_send`, upgraded to `shutdown_both` for
eof or connection_reset); on success `TruncateBuffer` on the
`uint16`-cast size, then if the buffer is empty `ReArrange` and stop;
otherwise the block ends (releasing the lock) and `PostWrite()` is
called to re-arm. -/
def PostWriteCompletion (shutErr : Option Nat) (ec : ErrorCode) (n : Nat)
    (s : SessionState) : StepResult :=
  if s.socketOpen = false then
    { state := s, logs := [LogEntry.writeCompletionClosed], posted := [],
      events := [Event.lockAcquire, Event.lockRelease],
      terminated := false, ret := true }
  else if ec.isError || n == 0 then
    let ty :=
      if ec = ErrorCode.eof ∨ ec = ErrorCode.connectionReset then
        ShutdownType.shutdown_both
      else
        ShutdownType.shutdown_send
    let lg :=
      if ec = ErrorCode.eof ∨ ec = ErrorCode.connectionReset then
        LogEntry.disconnected
      else if ec = ErrorCode.connectionAborted then
        LogEntry.connectionAborted
      else if n = 0 then
        LogEntry.zeroBytes
      else
        LogEntry.sendError ec.val
    runShutdown shutErr ty s [lg] [Event.lockAcquire, Event.lockRelease]
  else
    let sb := s.sendBuffer.TruncateBuffer (n % 65536)
    if sb.IsEmptyData then
      { state := { s with sendBuffer := sb.ReArrange }, logs := [],
        posted := [],
        events := [Event.lockAcquire, Event.truncate (n % 65536),
          Event.reArrange, Event.lockRelease],
        terminated := false, ret := true }
    else
      let r := PostWrite { s with sendBuffer := sb }
      { state := r.state, logs := r.logs, posted := r.posted,
        events := [Event.lockAcquire, Event.truncate (n % 65536),
          Event.lockRelease, Event.callPostWrite] ++ r.events,
        terminated := r.terminated, ret := true }

/-- `Session::SendPacket`: under `LOCK_W(_lock)`, append the serialized
packet with `SetPacket`; on failure log and return `false` without
posting I/O.  On success release the lock, call `PostWrite()`, and
return `true`.  Note that the source never consults the socket state
here — only `PostWrite` does. -/
def SendPacket (pkt : List Nat) (s : SessionState) : StepResult :=
  match s.sendBuffer.SetPacket pkt with
  | none =>
      { state := s, logs := [LogEntry.setPacketFailed], posted := [],
        events := [Event.lockAcquire, Event.lockRelease],
        terminated := false, ret := false }
  | some sb =>
      let r := PostWrite { s with sendBuffer := sb }
      { state := r.state, logs := r.logs, posted := r.posted,
        events := [Event.lockAcquire, Event.lockRelease,
          Event.callPostWrite] ++ r.events,
        terminated := r.terminated, ret := true }

/-- Iterated `consumePacket`: the buffer after `k` successful dispatches. -/
def consumeN : Nat → PacketBuffer → PacketBuffer
  | 0, rb => rb
  | k + 1, rb => consumeN k rb.consumePacket

/-! ## Concrete states used by witnesses and counterexamples -/

/-- An empty 16-byte buffer. -/
def bufDemo : PacketBuffer :=
  { storage := List.replicate 16 0, capacity := 16, readCursor := 0,
    writeCursor := 0 }

/-- A session with an open socket and empty buffers. -/
def sessionOpenDemo : SessionState :=
  { socketOpen := true, recvBuffer := bufDemo, sendBuffer := bufDemo }

/-- A session whose socket is closed. -/
def sessionClosedDemo : SessionState :=
  { socketOpen := false, recvBuffer := bufDemo, sendBuffer := bufDemo }

/-- A 16-byte send buffer with 6 pending bytes. -/
def sendBufDemo : PacketBuffer :=
  { storage := List.replicate 16 1, capacity := 16, readCursor := 0,
    writeCursor := 6 }

/-- An open session with 6 pending bytes queued for sending. -/
def sessionOpenDemoW : SessionState :=
  { socketOpen := true, recvBuffer := bufDemo, sendBuffer := sendBufDemo }

/-! ## Claims -/

/-- C3: the claim says `Shutdown` never propagates an error upward — any
error while shutting down or closing the socket is logged and swallowed.
The code intends this (the function is `noexcept` and has a catch clause
logging "Session fail to close socket"), but the clause catches
`boost::system::error_code` while the throwing overloads of
`_socket.shutdown`/`_socket.close` raise `boost::system::system_error`,
so it never matches: on an open session whose socket reports an OS error
(here code 107, ENOTCONN) the exception escapes the `noexcept` function
and the process terminates instead of completing normally. -/
theorem shutdown_oserror_escapes_noexcept :
    Shutdown (some 107) ShutdownType.shutdown_both sessionOpenDemo =
      ShutdownResult.terminated
        [LogEntry.sessionDisconnected ShutdownType.shutdown_both] := by
  rfl

/-- C5: `Shutdown` is idempotent.  If the socket is already closed it is a
no-op: no log line, no socket operation, the state is returned unchanged.
If the socket is open and the OS calls succeed, the call performs the
open-to-closed transition and logs the disconnect exactly once, and any
second call (any mode, any OS behaviour) is a no-op. -/
theorem shutdown_idempotent (osErr osErr2 : Option Nat)
    (ty ty2 : ShutdownType) (s : SessionState) :
    (s.socketOpen = false → Shutdown osErr ty s = ShutdownResult.ok s []) ∧
    (s.socketOpen = true →
      Shutdown none ty s =
        ShutdownResult.ok { s with socketOpen := false }
          [LogEntry.sessionDisconnected ty] ∧
      Shutdown osErr2 ty2 { s with socketOpen := false } =
        ShutdownResult.ok { s with socketOpen := false } []) := by
  refine ⟨fun h => ?_, fun h => ⟨?_, ?_⟩⟩
  · simp [Shutdown, h]
  · simp [Shutdown, h, shutdownCloseOps]
  · simp [Shutdown]

/-- C5 witness: a concrete open session; the first call closes it and
logs once, the second call (different mode, erroring OS) is a no-op. -/
theorem shutdown_idempotent_witness :
    Shutdown none ShutdownType.shutdown_both sessionOpenDemo =
      ShutdownResult.ok sessionClosedDemo
        [LogEntry.sessionDisconnected ShutdownType.shutdown_both] ∧
    Shutdown (some 5) ShutdownType.shutdown_send sessionClosedDemo =
      ShutdownResult.ok sessionClosedDemo [] := by
  have h := (shutdown_idempotent none (some 5) ShutdownType.shutdown_both
    ShutdownType.shutdown_send sessionOpenDemo).2 rfl
  exact ⟨h.1, h.2⟩

/-- C8: calling `PostWrite` when the send buffer holds no pending data
returns without posting any I/O and without changing the session state,
regardless of whether the socket is open — so it is idempotent and safe
to call opportunistically. -/
theorem postWrite_empty_noop (s : SessionState)
    (h : s.sendBuffer.IsEmptyData = true) :
    (PostWrite s).state = s ∧ (PostWrite s).posted = [] := by
  by_cases hOpen : s.socketOpen = false <;> simp [PostWrite, hOpen, h]

/-- C8 witness: the open session with an empty send buffer. -/
theorem postWrite_empty_noop_witness :
    (PostWrite sessionOpenDemo).state = sessionOpenDemo ∧
    (PostWrite sessionOpenDemo).posted = [] :=
  postWrite_empty_noop sessionOpenDemo (by decide)

/-- C9: a completed read or write that transfers zero bytes with no OS
error is treated as a disconnect: the "Disconnected. 0 bytes transferred"
line is logged at informational severity, the shutdown is restricted to
the failing direction (`shutdown_receive` for the read loop,
`shutdown_send` for the write loop), and no operation is re-armed. -/
theorem zero_bytes_disconnect (h : Nat → Bool) (s : SessionState)
    (hOpen : s.socketOpen = true) :
    (PostReceiveCompletion h none ErrorCode.ok [] s).logs =
      [LogEntry.zeroBytes,
       LogEntry.sessionDisconnected ShutdownType.shutdown_receive] ∧
    (PostReceiveCompletion h none ErrorCode.ok [] s).state.socketOpen =
      false ∧
    (PostReceiveCompletion h none ErrorCode.ok [] s).posted = [] ∧
    (PostWriteCompletion none ErrorCode.ok 0 s).logs =
      [LogEntry.zeroBytes,
       LogEntry.sessionDisconnected ShutdownType.shutdown_send] ∧
    (PostWriteCompletion none ErrorCode.ok 0 s).state.socketOpen = false ∧
    (PostWriteCompletion none ErrorCode.ok 0 s).posted = [] ∧
    LogEntry.zeroBytes.severity = Severity.info := by
  simp [PostReceiveCompletion, PostWriteCompletion, runShutdown, Shutdown,
    shutdownCloseOps, hOpen, ErrorCode.isError, LogEntry.severity]

/-- C9 witness: the concrete open session. -/
theorem zero_bytes_disconnect_witness :
    (PostReceiveCompletion (fun _ => true) none ErrorCode.ok []
        sessionOpenDemo).logs =
      [LogEntry.zeroBytes,
       LogEntry.sessionDisconnected ShutdownType.shutdown_receive] ∧
    (PostWriteCompletion none ErrorCode.ok 0 sessionOpenDemo).posted =
      [] := by
  have h := zero_bytes_disconnect (fun _ => true) sessionOpenDemo rfl
  exact ⟨h.1, h.2.2.2.2.2.1⟩

/-- C1 counterexample: after a write completion reports
`connection_reset` on a concrete open session (so the socket is closed),
a subsequent `SendPacket` of a small packet returns `true`, not failure —
`SendPacket` never consults the socket state, and `SetPacket` succeeds.
(It does post no further I/O, as the claim also says.) -/
theorem sendPacket_after_reset_returns_true_cex :
    (PostWriteCompletion none ErrorCode.connectionReset 4
        sessionOpenDemo).state.socketOpen = false ∧
    (SendPacket [0, 0, 1, 0]
        (PostWriteCompletion none ErrorCode.connectionReset 4
          sessionOpenDemo).state).ret = true ∧
    (SendPacket [0, 0, 1, 0]
        (PostWriteCompletion none ErrorCode.connectionReset 4
          sessionOpenDemo).state).posted = [] := by
  decide

/-- C1 (amended): after a write completion reports `connection_reset`
(and the OS shutdown calls succeed), the session reaches the
fully-closed state, and every subsequent `SendPacket` on the closed
session posts no further I/O operation; its return value, however, only
reflects whether `SetPacket` stored the packet in the send buffer — it
returns success whenever the packet fits, failing only on encode
overflow. -/
theorem reset_closes_and_sendPacket_posts_no_io (n : Nat)
    (pkt : List Nat) (s s2 : SessionState) (hOpen : s.socketOpen = true)
    (hClosed : s2.socketOpen = false) :
    (PostWriteCompletion none ErrorCode.connectionReset n
        s).state.socketOpen = false ∧
    (PostWriteCompletion none ErrorCode.connectionReset n s).posted =
      [] ∧
    (SendPacket pkt s2).posted = [] ∧
    ((SendPacket pkt s2).ret = true ↔
      (s2.sendBuffer.SetPacket pkt).isSome = true) := by
  refine ⟨?_, ?_, ?_, ?_⟩
  · simp [PostWriteCompletion, runShutdown, Shutdown, shutdownCloseOps,
      hOpen, ErrorCode.isError]
  · simp [PostWriteCompletion, runShutdown, Shutdown, shutdownCloseOps,
      hOpen, ErrorCode.isError]
  · rcases hsp : s2.sendBuffer.SetPacket pkt with _ | sb <;>
      simp [SendPacket, PostWrite, hsp, hClosed]
  · rcases hsp : s2.sendBuffer.SetPacket pkt with _ | sb <;>
      simp [SendPacket, PostWrite, hsp, hClosed]

/-- C1 witness: the concrete open session; after the reset completion the
socket is closed, and `SendPacket` of a fitting packet on the closed
session posts nothing (and its return value matches `SetPacket`). -/
theorem reset_closes_and_sendPacket_posts_no_io_witness :
    (PostWriteCompletion none ErrorCode.connectionReset 4
        sessionOpenDemo).state.socketOpen = false ∧
    (SendPacket [0, 0, 1, 0] sessionClosedDemo).posted = [] := by
  have h := reset_closes_and_sendPacket_posts_no_io 4 [0, 0, 1, 0]
    sessionOpenDemo sessionClosedDemo rfl rfl
  exact ⟨h.1, h.2.2.1⟩

/-- C2 counterexample: a read completion reporting `connection_aborted`
on a concrete open session performs `Shutdown(shutdown_receive)` — the
direction-restricted default — not the full bidirectional
`shutdown_both` the claim requires, as the disconnect log line records. -/
theorem connectionAborted_not_full_shutdown_cex :
    (PostReceiveCompletion (fun _ => true) none ErrorCode.connectionAborted
        [] sessionOpenDemo).logs =
      [LogEntry.connectionAborted,
       LogEntry.sessionDisconnected ShutdownType.shutdown_receive] ∧
    ShutdownType.shutdown_receive ≠ ShutdownType.shutdown_both := by
  decide

/-- C2 (amended): when a read or write completion reports
`connection_aborted`, the session logs "Connection aborted" at
informational severity and shuts down the failing direction only —
`shutdown_receive` from the read handler, `shutdown_send` from the write
handler (the socket is then closed when the OS calls succeed); nothing is
re-armed. -/
theorem connectionAborted_info_direction_restricted (h : Nat → Bool)
    (shutErr : Option Nat) (data : List Nat) (n : Nat) (s : SessionState)
    (hOpen : s.socketOpen = true) :
    (PostReceiveCompletion h shutErr ErrorCode.connectionAborted data
        s).logs =
      [LogEntry.connectionAborted,
       LogEntry.sessionDisconnected ShutdownType.shutdown_receive] ∧
    (PostReceiveCompletion h shutErr ErrorCode.connectionAborted data
        s).posted = [] ∧
    (PostWriteCompletion shutErr ErrorCode.connectionAborted n s).logs =
      [LogEntry.connectionAborted,
       LogEntry.sessionDisconnected ShutdownType.shutdown_send] ∧
    (PostWriteCompletion shutErr ErrorCode.connectionAborted n s).posted =
      [] ∧
    (shutErr = none →
      (PostReceiveCompletion h shutErr ErrorCode.connectionAborted data
          s).state.socketOpen = false ∧
      (PostWriteCompletion shutErr ErrorCode.connectionAborted n
          s).state.socketOpen = false) ∧
    LogEntry.connectionAborted.severity = Severity.info := by
  rcases shutErr with _ | c <;>
    simp [PostReceiveCompletion, PostWriteCompletion, runShutdown,
      Shutdown, shutdownCloseOps, hOpen, ErrorCode.isError,
      LogEntry.severity]

/-- C2 witness: the concrete open session, with succeeding OS calls. -/
theorem connectionAborted_info_direction_restricted_witness :
    (PostWriteCompletion none ErrorCode.connectionAborted 3
        sessionOpenDemo).logs =
      [LogEntry.connectionAborted,
       LogEntry.sessionDisconnected ShutdownType.shutdown_send] ∧
    (PostReceiveCompletion (fun _ => true) none
        ErrorCode.connectionAborted [] sessionOpenDemo).state.socketOpen =
      false := by
  have h := connectionAborted_info_direction_restricted (fun _ => true)
    none [] 3 sessionOpenDemo rfl
  exact ⟨h.2.2.1, (h.2.2.2.2.1 rfl).1⟩

/-- C4 counterexample: `boost::asio::error::operation_aborted`-like OS
errors aside, take the generic error code 995 with zero bytes
transferred on a concrete open session: the write completion shuts down
the failing direction, but no log line carries the error code and
message — the zero-byte informational branch wins over the
code-and-message error branch. -/
theorem other_error_logging_cex :
    (PostWriteCompletion none (ErrorCode.other 995) 0
        sessionOpenDemo).logs =
      [LogEntry.zeroBytes,
       LogEntry.sessionDisconnected ShutdownType.shutdown_send] ∧
    ((PostWriteCompletion none (ErrorCode.other 995) 0
        sessionOpenDemo).logs.all fun l => !l.mentionsErrorCode) =
      true := by
  decide

/-- C4 (amended): when a read or write completion reports end-of-stream
(eof) or `connection_reset`, the session shuts down both directions
(informational "Disconnected" log).  For any other OS error code the
shutdown is restricted to the failing direction (receive for the read
loop, send for the write loop); the error code and message are logged at
error severity only when the error is neither `connection_aborted` nor
accompanied by zero transferred bytes — those two cases are logged
informationally ("Connection aborted" / "Disconnected. 0 bytes
transferred") without the code and message. -/
theorem transport_error_classification (h : Nat → Bool) (c : Nat)
    (data : List Nat) (n : Nat) (s : SessionState)
    (hOpen : s.socketOpen = true) :
    ((PostReceiveCompletion h none ErrorCode.eof data s).logs =
      [LogEntry.disconnected,
       LogEntry.sessionDisconnected ShutdownType.shutdown_both]) ∧
    ((PostReceiveCompletion h none ErrorCode.connectionReset data s).logs =
      [LogEntry.disconnected,
       LogEntry.sessionDisconnected ShutdownType.shutdown_both]) ∧
    ((PostWriteCompletion none ErrorCode.eof n s).logs =
      [LogEntry.disconnected,
       LogEntry.sessionDisconnected ShutdownType.shutdown_both]) ∧
    ((PostWriteCompletion none ErrorCode.connectionReset n s).logs =
      [LogEntry.disconnected,
       LogEntry.sessionDisconnected ShutdownType.shutdown_both]) ∧
    (data.length ≠ 0 →
      (PostReceiveCompletion h none (ErrorCode.other c) data s).logs =
        [LogEntry.recvError c,
         LogEntry.sessionDisconnected ShutdownType.shutdown_receive]) ∧
    (n ≠ 0 →
      (PostWriteCompletion none (ErrorCode.other c) n s).logs =
        [LogEntry.sendError c,
         LogEntry.sessionDisconnected ShutdownType.shutdown_send]) ∧
    ((PostReceiveCompletion h none (ErrorCode.other c) [] s).logs =
      [LogEntry.zeroBytes,
       LogEntry.sessionDisconnected ShutdownType.shutdown_receive]) ∧
    ((PostWriteCompletion none (ErrorCode.other c) 0 s).logs =
      [LogEntry.zeroBytes,
       LogEntry.sessionDisconnected ShutdownType.shutdown_send]) ∧
    ((PostReceiveCompletion h none ErrorCode.connectionAborted data
        s).logs =
      [LogEntry.connectionAborted,
       LogEntry.sessionDisconnected ShutdownType.shutdown_receive]) ∧
    ((PostWriteCompletion none ErrorCode.connectionAborted n s).logs =
      [LogEntry.connectionAborted,
       LogEntry.sessionDisconnected ShutdownType.shutdown_send]) ∧
    (LogEntry.recvError c).severity = Severity.err ∧
    (LogEntry.sendError c).severity = Severity.err ∧
    LogEntry.disconnected.severity = Severity.info ∧
    (LogEntry.recvError c).mentionsErrorCode = true ∧
    (LogEntry.sendError c).mentionsErrorCode = true := by
  refine ⟨?_, ?_, ?_, ?_, fun hn => ?_, fun hn => ?_, ?_, ?_, ?_, ?_,
    rfl, rfl, rfl, rfl, rfl⟩ <;>
    simp_all [PostReceiveCompletion, PostWriteCompletion, runShutdown,
      Shutdown, shutdownCloseOps, ErrorCode.isError, ErrorCode.val]

/-- C4 witness: the concrete open session, error code 995, two bytes
transferred (nonzero) on each side. -/
theorem transport_error_classification_witness :
    (PostReceiveCompletion (fun _ => true) none (ErrorCode.other 995)
        [1, 1] sessionOpenDemo).logs =
      [LogEntry.recvError 995,
       LogEntry.sessionDisconnected ShutdownType.shutdown_receive] ∧
    (PostWriteCompletion none ErrorCode.eof 2 sessionOpenDemo).logs =
      [LogEntry.disconnected,
       LogEntry.sessionDisconnected ShutdownType.shutdown_both] := by
  have h := transport_error_classification (fun _ => true) 995 [1, 1] 2
    sessionOpenDemo rfl
  exact ⟨h.2.2.2.2.1 (by decide), h.2.2.1⟩

/-- The drain loop is a no-op when no full packet is ready. -/
lemma drainLoop_not_ready (h : Nat → Bool) (i : Nat) (rb : PacketBuffer)
    (hr : rb.IsAbleToGetPacket = false) :
    drainLoop h i rb = (i, rb, none) := by
  rw [drainLoop]
  simp [hr]

/-- The drain loop consumes ready packets one at a time and stops at the
first failing dispatch: if dispatches `i, ..., i+k-1` succeed, dispatch
`i+k` fails, and the buffer holds at least `k+1` consecutive ready
packets, the loop returns with exactly `k` packets consumed and reports
the opcode of the packet the failing dispatch left in place. -/
lemma drainLoop_first_failure (h : Nat → Bool) :
    ∀ (k i : Nat) (rb : PacketBuffer),
      (∀ j, j < k → h (i + j) = true) → h (i + k) = false →
      (∀ j, j ≤ k → (consumeN j rb).IsAbleToGetPacket = true) →
      drainLoop h i rb =
        (i + k, consumeN k rb, some (consumeN k rb).GetPacketNo) := by
  intro k
  induction k with
  | zero =>
    intro i rb hsucc hfail hready
    have h0 := hready 0 (Nat.le_refl 0)
    simp only [consumeN] at h0
    rw [drainLoop]
    simp only [Nat.add_zero] at hfail
    simp [h0, hfail, consumeN]
  | succ k ih =>
    intro i rb hsucc hfail hready
    have h0 := hready 0 (Nat.zero_le _)
    simp only [consumeN] at h0
    have hi : h i = true := by
      have := hsucc 0 (Nat.succ_pos k)
      simpa using this
    rw [drainLoop]
    simp only [h0, dite_true, hi, if_true]
    have hrec := ih (i + 1) rb.consumePacket
      (fun j hj => by
        have := hsucc (j + 1) (by omega)
        have he : i + 1 + j = i + (j + 1) := by omega
        rw [he]
        exact this)
      (by
        have he : i + 1 + k = i + (k + 1) := by omega
        rw [he]
        exact hfail)
      (fun j hj => by
        have := hready (j + 1) (by omega)
        simpa [consumeN] using this)
    rw [hrec]
    have he : i + 1 + k = i + (k + 1) := by omega
    rw [he]
    rfl

/-- C6: in the read-loop drain, packets are dispatched one at a time
while the receive buffer has a ready packet; on the first dispatch
failure (success for the first `k` dispatches, failure at dispatch `k`,
with at least `k+1` ready packets in the buffer) the completion logs the
failing packet's opcode, performs a receive-side-only shutdown, consumes
no packet beyond the `k` successful ones, and posts nothing — neither
further dispatches nor a re-armed read. -/
theorem drain_stops_at_first_dispatch_failure (h : Nat → Bool) (k : Nat)
    (data : List Nat) (s : SessionState) (rb2 : PacketBuffer)
    (hOpen : s.socketOpen = true) (hn : data.length ≠ 0)
    (happ : (s.recvBuffer.osDeposit data).AppendWriteSize
      (data.length % 65536) = some rb2)
    (hsucc : ∀ j, j < k → h j = true) (hfail : h k = false)
    (hready : ∀ j, j ≤ k → (consumeN j rb2).IsAbleToGetPacket = true) :
    PostReceiveCompletion h none ErrorCode.ok data s =
      { state :=
          { s with socketOpen := false, recvBuffer := consumeN k rb2 },
        logs := [LogEntry.handlerFailed (consumeN k rb2).GetPacketNo,
          LogEntry.sessionDisconnected ShutdownType.shutdown_receive],
        posted := [], events := [], terminated := false, ret := true } := by
  have hd := drainLoop_first_failure h k 0 rb2
    (fun j hj => by simpa using hsucc j hj)
    (by simpa using hfail)
    hready
  simp [PostReceiveCompletion, happ, hd, runShutdown, Shutdown,
    shutdownCloseOps, hOpen, ErrorCode.isError, hn]

/-- C6 witness: an 8-byte receive delivering two ready packets (opcode 7
then opcode 9); the first dispatch succeeds and the second fails, so the
failing packet's opcode 9 is logged, the receive side is shut down, and
nothing further is posted. -/
theorem drain_stops_at_first_dispatch_failure_witness :
    (PostReceiveCompletion (fun j => j == 0) none ErrorCode.ok
        [0, 0, 7, 0, 0, 0, 9, 0] sessionOpenDemo).logs =
      [LogEntry.handlerFailed 9,
       LogEntry.sessionDisconnected ShutdownType.shutdown_receive] ∧
    (PostReceiveCompletion (fun j => j == 0) none ErrorCode.ok
        [0, 0, 7, 0, 0, 0, 9, 0] sessionOpenDemo).posted = [] := by
  have h := drain_stops_at_first_dispatch_failure (fun j => j == 0) 1
    [0, 0, 7, 0, 0, 0, 9, 0] sessionOpenDemo
    { storage := [0, 0, 7, 0, 0, 0, 9, 0] ++ List.replicate 8 0,
      capacity := 16, readCursor := 0, writeCursor := 8 }
    rfl (by decide) (by decide) (by decide) (by decide) (by decide)
  rw [h]
  constructor
  · decide
  · rfl

/-- C7: on a successful write completion transferring `n` bytes (with a
well-formed send buffer, so the `uint16` cast is lossless), the send
buffer's read cursor advances by exactly `n`.  If that empties the
buffer, it is compacted (`ReArrange`) and the loop stops — no event
after the lock release, nothing posted.  If bytes remain, `PostWrite` is
called again to re-arm, and the event trace shows that call strictly
after the completion's `lockRelease`. -/
theorem write_success_truncate_and_rearm (n : Nat) (s : SessionState)
    (hOpen : s.socketOpen = true) (hWF : s.sendBuffer.WF) (hn : 0 < n)
    (hle : n ≤ s.sendBuffer.GetBufferSize) :
    (n = s.sendBuffer.GetBufferSize →
      PostWriteCompletion none ErrorCode.ok n s =
        { state :=
            { s with
              sendBuffer := (s.sendBuffer.TruncateBuffer n).ReArrange },
          logs := [], posted := [],
          events := [Event.lockAcquire, Event.truncate n,
            Event.reArrange, Event.lockRelease],
          terminated := false, ret := true }) ∧
    (n < s.sendBuffer.GetBufferSize →
      PostWriteCompletion none ErrorCode.ok n s =
        { state := { s with sendBuffer := s.sendBuffer.TruncateBuffer n },
          logs := [], posted := [AsyncOp.asyncWrite],
          events := [Event.lockAcquire, Event.truncate n,
            Event.lockRelease, Event.callPostWrite, Event.lockAcquire,
            Event.postAsyncWrite, Event.lockRelease],
          terminated := false, ret := true } ∧
      (s.sendBuffer.TruncateBuffer n).readCursor =
        s.sendBuffer.readCursor + n) := by
  obtain ⟨hrw, hwc, hlen, hcap⟩ := hWF
  have hn0 : n ≠ 0 := Nat.pos_iff_ne_zero.mp hn
  have h16 : n % 65536 = n := by
    apply Nat.mod_eq_of_lt
    simp only [PacketBuffer.GetBufferSize] at hle
    omega
  constructor
  · intro he
    have hempty : (s.sendBuffer.TruncateBuffer n).IsEmptyData = true := by
      simp only [PacketBuffer.TruncateBuffer, PacketBuffer.IsEmptyData,
        PacketBuffer.GetBufferSize, decide_eq_true_eq] at *
      omega
    simp [PostWriteCompletion, hOpen, ErrorCode.isError, h16, hempty, hn0]
  · intro hlt
    have hne : (s.sendBuffer.TruncateBuffer n).IsEmptyData = false := by
      simp only [PacketBuffer.TruncateBuffer, PacketBuffer.IsEmptyData,
        PacketBuffer.GetBufferSize, decide_eq_false_iff_not] at *
      omega
    refine ⟨?_, by simp [PacketBuffer.TruncateBuffer]⟩
    simp [PostWriteCompletion, PostWrite, hOpen, ErrorCode.isError, h16,
      hne, hn0]

/-- C7 witness: 6 pending bytes; a completion of all 6 bytes compacts
and stops, a completion of 4 bytes advances the cursor to 4 and re-arms
`PostWrite` after the lock release (visible in the event trace). -/
theorem write_success_truncate_and_rearm_witness :
    (PostWriteCompletion none ErrorCode.ok 6 sessionOpenDemoW).posted =
      [] ∧
    (PostWriteCompletion none ErrorCode.ok 4
        sessionOpenDemoW).state.sendBuffer.readCursor = 4 ∧
    (PostWriteCompletion none ErrorCode.ok 4 sessionOpenDemoW).events =
      [Event.lockAcquire, Event.truncate 4, Event.lockRelease,
       Event.callPostWrite, Event.lockAcquire, Event.postAsyncWrite,
       Event.lockRelease] := by
  have h6 := (write_success_truncate_and_rearm 6 sessionOpenDemoW rfl
    (by constructor <;> decide) (by decide) (by decide)).1 (by decide)
  have h4 := (write_success_truncate_and_rearm 4 sessionOpenDemoW rfl
    (by constructor <;> decide) (by decide) (by decide)).2 (by decide)
  rw [h6, h4.1]
  decide

/-- C10: both completion handlers narrow the transferred size to 16 bits
(`static_cast<uint16>`) before the buffer bookkeeping: the receive
buffer's write cursor is advanced by `bytes_transferred % 2^16`
(`AppendWriteSize`), the send buffer's read cursor by
`bytes_transferred % 2^16` (`TruncateBuffer`), and for any transfer of
65536 bytes or more the recorded size differs from the actual one. -/
theorem transfer_size_narrowed_mod_65536 (h : Nat → Bool)
    (data : List Nat) (n k : Nat) (rb2 : PacketBuffer) (s : SessionState)
    (hOpen : s.socketOpen = true) :
    (data.length ≠ 0 →
      (s.recvBuffer.osDeposit data).AppendWriteSize
          (data.length % 65536) = some rb2 →
      rb2.IsAbleToGetPacket = false →
      rb2.IsNotEnoughBuffer = false →
      (PostReceiveCompletion h none ErrorCode.ok data
          s).state.recvBuffer = rb2 ∧
      rb2.writeCursor =
        s.recvBuffer.writeCursor + data.length % 65536) ∧
    (n ≠ 0 →
      s.sendBuffer.readCursor + n % 65536 ≠ s.sendBuffer.writeCursor →
      (PostWriteCompletion none ErrorCode.ok n
          s).state.sendBuffer.readCursor =
        s.sendBuffer.readCursor + n % 65536) ∧
    (65536 ≤ k → k % 65536 ≠ k) := by
  refine ⟨fun hn happ hready hspace => ⟨?_, ?_⟩, fun hn hne => ?_,
    fun hk => ?_⟩
  · simp [PostReceiveCompletion, happ, drainLoop_not_ready h 0 rb2 hready,
      PostReceive, hOpen, ErrorCode.isError, hn, hspace]
  · simp only [PacketBuffer.AppendWriteSize, PacketBuffer.osDeposit] at happ
    split at happ
    · cases happ
      rfl
    · cases happ
  · simp [PostWriteCompletion, PostWrite, hOpen, ErrorCode.isError, hn,
      hne, PacketBuffer.TruncateBuffer, PacketBuffer.IsEmptyData]
  · have : k % 65536 < 65536 := Nat.mod_lt k (by omega)
    omega

/-- C10 witness: a 3-byte receive advances the write cursor by
`3 % 65536 = 3`; a 2-byte write completion advances the read cursor by
`2 % 65536 = 2`; and `65536 % 65536 ≠ 65536`. -/
theorem transfer_size_narrowed_mod_65536_witness :
    (PostReceiveCompletion (fun _ => true) none ErrorCode.ok [1, 2, 3]
        sessionOpenDemo).state.recvBuffer.writeCursor = 3 ∧
    (PostWriteCompletion none ErrorCode.ok 2
        sessionOpenDemoW).state.sendBuffer.readCursor = 2 ∧
    65536 % 65536 ≠ 65536 := by
  have h := transfer_size_narrowed_mod_65536 (fun _ => true) [1, 2, 3] 2
    65536
    { storage := [1, 2, 3] ++ List.replicate 13 0, capacity := 16,
      readCursor := 0, writeCursor := 3 }
    sessionOpenDemo rfl
  have h2 := transfer_size_narrowed_mod_65536 (fun _ => true) [1, 2, 3] 2
    65536
    { storage := [1, 2, 3] ++ List.replicate 13 0, capacity := 16,
      readCursor := 0, writeCursor := 3 }
    sessionOpenDemoW rfl
  refine ⟨?_, ?_, h.2.2 (by omega)⟩
  · rw [(h.1 (by decide) (by decide) (by decide) (by decide)).1]
  · rw [h2.2.1 (by decide) (by decide)]
    decide

end XP
